import Mathlib

/-!
Shallow embedding of the `incremental` package (src/src/incremental/__init__.py
and src/src/incremental/update.py): the `Version` value type with its
comparison and formatting algorithms, and the version-bump decision logic and
tree-rewrite substitution passes of `incremental.update._run`.

Python integers are modelled as `Int` (unbounded, exact), optional integer
fields as `Option Int` (`none` = Python `None`), and byte strings as
`List Char` / `String`.  Python truthiness is made explicit (`0` and `None`
are falsy).
-/

/-- The `major` field of a Python `Version` is either an `int` or the string
`"NEXT"` (the unreleased sentinel).  We model it as a tagged variant. -/
inductive Major where
  | next : Major
  | num : Int → Major
deriving DecidableEq

/-- The class `incremental.Version`: the fields stored by `Version.__init__`
(package, major, minor, micro, release_candidate, post, dev).  The deprecated
`prerelease` constructor argument is folded into `release_candidate` by the
constructor `mkVersionPy` below, mirroring `__init__`. -/
structure Version where
  package : String
  major : Major
  minor : Int
  micro : Int
  release_candidate : Option Int
  post : Option Int
  dev : Option Int
deriving DecidableEq

/-- Python truthiness of an `int`: `0` is falsy. -/
def truthyI (n : Int) : Bool := n ≠ 0

/-- Python truthiness of an optional `int`: `None` and `0` are falsy. -/
def truthyO (x : Option Int) : Bool :=
  match x with
  | none => false
  | some n => n ≠ 0

/-- Python truthiness of an optional string (`None` and `""` are falsy);
used for the `newversion` command-line option. -/
def truthyS (x : Option String) : Bool :=
  match x with
  | none => false
  | some s => s ≠ ""

/-- Python `x or 0` for an optional int `x`: the value when truthy, else `0`. -/
def pyOr0 (x : Option Int) : Int :=
  match x with
  | none => 0
  | some n => if n = 0 then 0 else n

/-- The constructor `Version.__init__`: validates the argument combination and stores the
fields.  Mirrors the two `ValueError` checks: conflicting
`release_candidate`/`prerelease`, and the `NEXT` invariant (all other numeric
values must be falsy when `major == "NEXT"`). -/
def mkVersionPy (package : String) (major : Major) (minor micro : Int)
    (release_candidate : Option Int) (prerelease : Option Int)
    (post : Option Int) (dev : Option Int) : Except String Version :=
  if truthyO release_candidate && truthyO prerelease then
    .error "Please only return one of these."
  else
    let release_candidate :=
      if truthyO prerelease && !truthyO release_candidate then prerelease
      else release_candidate
    if major = Major.next &&
        (truthyI minor || truthyI micro || truthyO release_candidate ||
         truthyO post || truthyO dev) then
      .error "When using NEXT, all other values except Package must be 0."
    else
      .ok ⟨package, major, minor, micro, release_candidate, post, dev⟩

/-- Rendering `str` of a Python int — same digits as Lean's `toString` on `Int`. -/
def pyIntStr (n : Int) : String := toString n

/-- The method `Version.public()`: `<major>.<minor>.<micro>[rcN][postN][devN]`, or the
bare token `NEXT` when `major == "NEXT"`.  Note that a field equal to `0` is
rendered (only `None` is omitted). -/
def pyPublic (v : Version) : String :=
  match v.major with
  | Major.next => "NEXT"
  | Major.num m =>
    let rc := match v.release_candidate with
      | none => ""
      | some n => "rc" ++ pyIntStr n
    let post := match v.post with
      | none => ""
      | some n => "post" ++ pyIntStr n
    let dev := match v.dev with
      | none => ""
      | some n => "dev" ++ pyIntStr n
    pyIntStr m ++ "." ++ pyIntStr v.minor ++ "." ++ pyIntStr v.micro ++
      rc ++ post ++ dev

/-- Python `repr` of the `major` field (`%r`): quoted for the string
`"NEXT"`, plain digits for an int. -/
def majorRepr (m : Major) : String :=
  match m with
  | Major.next => "'NEXT'"
  | Major.num n => pyIntStr n

/-- The method `Version.__repr__`:
`Version('<package>', <major>, <minor>, <micro>[, release_candidate=N][, post=N][, dev=N])`.
The package is rendered with Python `%r` single quotes (package names here
contain no quote or escape characters). -/
def pyRepr (v : Version) : String :=
  let rc := match v.release_candidate with
    | none => ""
    | some n => ", release_candidate=" ++ pyIntStr n
  let post := match v.post with
    | none => ""
    | some n => ", post=" ++ pyIntStr n
  let dev := match v.dev with
    | none => ""
    | some n => ", dev=" ++ pyIntStr n
  "Version('" ++ v.package ++ "', " ++ majorRepr v.major ++ ", " ++
    pyIntStr v.minor ++ ", " ++ pyIntStr v.micro ++ rc ++ post ++ dev ++ ")"

/-!  ## Comparison (`Version.__cmp__`)  -/

/-- The comparison domain after per-field substitution: a Python `int`, or
the `_inf` sentinel that compares above everything else. -/
inductive ExtInt where
  | int : Int → ExtInt
  | inf : ExtInt
deriving DecidableEq

/-- The repository's `_cmp` fallback on ints: `-1` when `a < b`, `0` when
equal, `1` otherwise — expressed as an `Ordering`. -/
def pyCmp (a b : Int) : Ordering :=
  if a < b then .lt else if a = b then .eq else .gt

/-- Three-way comparison on the substituted domain: `_inf` equals itself and
is greater than every int (`_inf.__cmp__` returns 0 on `_inf`, else 1; an int
compares below `_inf` through the reflected operators). -/
def ExtInt.cmp : ExtInt → ExtInt → Ordering
  | .int a, .int b => pyCmp a b
  | .int _, .inf => .lt
  | .inf, .int _ => .gt
  | .inf, .inf => .eq

/-- Substitution for `major`: `"NEXT"` maps to `_inf`. -/
def substMajor (m : Major) : ExtInt :=
  match m with
  | Major.next => ExtInt.inf
  | Major.num n => ExtInt.int n

/-- Substitution for `release_candidate` and `dev`: absent maps to `_inf`. -/
def substOptInf (x : Option Int) : ExtInt :=
  match x with
  | none => ExtInt.inf
  | some n => ExtInt.int n

/-- Substitution for `post`: absent maps to `-1`. -/
def substPost (x : Option Int) : Int :=
  match x with
  | none => -1
  | some n => n

/-- The substituted 6-tuple compared lexicographically by `__cmp__`. -/
def Version.key (v : Version) : ExtInt × Int × Int × ExtInt × Int × ExtInt :=
  (substMajor v.major, v.minor, v.micro, substOptInf v.release_candidate,
   substPost v.post, substOptInf v.dev)

/-- Lexicographic combination of two comparators — Python tuple comparison
restricted to a pair (head comparison decides unless it is an equality). -/
def cmpProd (ca : α → α → Ordering) (cb : β → β → Ordering)
    (x y : α × β) : Ordering :=
  (ca x.1 y.1).then (cb x.2 y.2)

/-- Python comparison of the substituted 6-tuples (lexicographic). -/
def cmp6 : (ExtInt × Int × Int × ExtInt × Int × ExtInt) →
    (ExtInt × Int × Int × ExtInt × Int × ExtInt) → Ordering :=
  cmpProd ExtInt.cmp (cmpProd pyCmp (cmpProd pyCmp (cmpProd ExtInt.cmp
    (cmpProd pyCmp ExtInt.cmp))))

/-- The int `-1`/`0`/`1` as returned by `_cmp`. -/
def Ordering.toPyInt : Ordering → Int
  | .lt => -1
  | .eq => 0
  | .gt => 1

/-- Python `str.lower()` for the ASCII package names used here: lower-case
the A–Z characters.  (Defined directly on the character list so that it
reduces definitionally, unlike `String.toLower`.) -/
def pyLowerChar (c : Char) : Char :=
  if 'A' ≤ c ∧ c ≤ 'Z' then Char.ofNat (c.toNat + 32) else c

/-- See `pyLowerChar`. -/
def pyLower (s : String) : String :=
  ⟨s.data.map pyLowerChar⟩

/-- A Python object handed to `Version.__cmp__`: a `Version` instance or a
non-`Version` value (a few representative kinds). -/
inductive PyObj where
  | ver : Version → PyObj
  | intObj : Int → PyObj
  | strObj : String → PyObj
  | noneObj : PyObj

/-- Python `isinstance(other, Version)`. -/
def PyObj.isVersionInstance : PyObj → Bool
  | .ver _ => true
  | _ => false

/-- What `Version.__cmp__` can produce: `NotImplemented`, a raised
`IncomparableVersions`, or an int `-1`/`0`/`1`. -/
inductive CmpResult where
  | notImplemented : CmpResult
  | incomparable : String → CmpResult
  | result : Int → CmpResult
deriving DecidableEq

/-- The method `Version.__cmp__`: `NotImplemented` for a non-`Version` operand; raises
`IncomparableVersions` when the lowercased package names differ; otherwise
`_cmp` on the substituted 6-tuples. -/
def Version.cmpPy (self : Version) (other : PyObj) : CmpResult :=
  match other with
  | .ver o =>
    if pyLower self.package ≠ pyLower o.package then
      .incomparable ("'" ++ self.package ++ "' != '" ++ o.package ++ "'")
    else
      .result (cmp6 self.key o.key).toPyInt
  | _ => .notImplemented

/-- Python 3 `==` on a `Version` left operand, as wired by `_comparable`:
`__eq__` forwards to `__cmp__`; on `NotImplemented` Python falls back to the
reflected operation and finally to identity, and a non-`Version` operand is
never the identical object, so the result is `False`.  A raised
`IncomparableVersions` propagates (`error`). -/
def pyEq (self : Version) (other : PyObj) : Except String Bool :=
  match self.cmpPy other with
  | .incomparable msg => .error msg
  | .notImplemented => .ok false
  | .result c => .ok (c = 0)

/-- Python 3 `!=` on a `Version` left operand (same fallback chain as `pyEq`;
the identity fallback yields `True` for a non-`Version` operand). -/
def pyNe (self : Version) (other : PyObj) : Except String Bool :=
  match self.cmpPy other with
  | .incomparable msg => .error msg
  | .notImplemented => .ok true
  | .result c => .ok (c ≠ 0)

/-!  ## The bump engine (`incremental.update._run`, decision part)  -/

/-- The constant `_YEAR_START` from update.py. -/
def _YEAR_START : Int := 2000

/-- Python `int(s)`: optional surrounding whitespace, optional sign, decimal
digits; anything else raises `ValueError`. -/
def pyInt (s : String) : Except String Int :=
  let t := s.trim
  let signDigits : Int × List Char :=
    match t.data with
    | '-' :: rest => (-1, rest)
    | '+' :: rest => (1, rest)
    | l => (1, l)
  if signDigits.2 ≠ [] && signDigits.2.all Char.isDigit then
    .ok (signDigits.1 *
      (signDigits.2.foldl (fun acc c => acc * 10 + (c.toNat - '0'.toNat)) 0 : Nat))
  else
    .error ("invalid literal for int() with base 10: '" ++ s ++ "'")

/-- The `while segments:` loop of the `newversion` branch: suffix segments
starting with `dev` / `rc` / `pre` assign the corresponding field of `v`
(`pre` is the deprecated alias for `rc`); other segments are skipped. -/
def applySegments : Version → List String → Except String Version
  | v, [] => .ok v
  | v, seg :: rest =>
    if seg.startsWith "dev" then
      match pyInt (seg.drop 3) with
      | .error e => .error e
      | .ok n => applySegments { v with dev := some n } rest
    else if seg.startsWith "rc" then
      match pyInt (seg.drop 2) with
      | .error e => .error e
      | .ok n => applySegments { v with release_candidate := some n } rest
    else if seg.startsWith "pre" then
      match pyInt (seg.drop 3) with
      | .error e => .error e
      | .ok n => applySegments { v with release_candidate := some n } rest
    else applySegments v rest

/-- The `newversion` branch: split on `'.'`, pop the first three segments as
major/minor/micro ints (an exhausted list raises `IndexError`, modelled as an
error), then run the suffix-segment loop. -/
def parseNewversion (package : String) (s : String) : Except String Version :=
  match s.splitOn "." with
  | [] => .error "pop from empty list"
  | s1 :: rest1 =>
    match pyInt s1 with
    | .error e => .error e
    | .ok major =>
      match rest1 with
      | [] => .error "pop from empty list"
      | s2 :: rest2 =>
        match pyInt s2 with
        | .error e => .error e
        | .ok minor =>
          match rest2 with
          | [] => .error "pop from empty list"
          | s3 :: rest3 =>
            match pyInt s3 with
            | .error e => .error e
            | .ok micro =>
              match mkVersionPy package (Major.num major) minor micro
                  none none none none with
              | .error e => .error e
              | .ok v => applySegments v rest3

/-- The decision core of `_run` (update.py lines 65–126): the three
flag-combination checks, the mode-branch dispatch computing the new version
`v` from the loaded `existing` version and the current date, and the trailing
`if rc:` increment of `v.release_candidate`.  The checks use only the flags
and run before the version file is consulted (`existing` is only used inside
the branches). -/
def runDecision (package : String) (newversion : Option String)
    (patch rc dev create : Bool) (existing : Version)
    (year month : Int) : Except String Version :=
  if truthyS newversion && patch || truthyS newversion && dev ||
      truthyS newversion && rc then
    .error "Only give --newversion"
  else if dev && patch || dev && rc then
    .error "Only give --dev"
  else if create && dev || create && patch || create && rc ||
      create && truthyS newversion then
    .error "Only give --create"
  else
    let base : Except String Version :=
      if truthyS newversion then
        parseNewversion package (newversion.getD "")
      else if create then
        mkVersionPy package (Major.num (year - _YEAR_START)) month 0
          none none none none
      else if rc then
        if truthyO existing.release_candidate then
          mkVersionPy package existing.major existing.minor existing.micro
            (some (pyOr0 existing.release_candidate + 1)) none none none
        else
          mkVersionPy package (Major.num (year - _YEAR_START)) month 1
            none none none none
      else if patch then
        mkVersionPy package existing.major existing.minor (existing.micro + 1)
          none none none none
      else if dev then
        mkVersionPy package existing.major existing.minor existing.micro
          existing.release_candidate none none
          (some (pyOr0 existing.dev + 1))
      else
        if truthyO existing.release_candidate then
          mkVersionPy package existing.major existing.minor existing.micro
            (some 0) none none none
        else
          .error "You need to issue a prerelease first!"
    match base with
    | .error e => .error e
    | .ok v =>
      .ok (if rc then
            { v with release_candidate := some (pyOr0 v.release_candidate + 1) }
          else v)

/-!  ## The tree rewrite (`_run`, substitution part)  -/

/-- Worker for `replaceAll`, structurally recursive on a fuel argument so
that it reduces definitionally.  Every step consumes at least one character
of the haystack and one unit of fuel, so fuel equal to the haystack length
(as supplied by `replaceAll`) never reaches the `0` fallback on a non-empty
haystack. -/
def replaceAllFuel (n r : List Char) : Nat → List Char → List Char
  | _, [] => []
  | 0, l => l
  | fuel + 1, c :: rest =>
    if n ≠ [] ∧ n.isPrefixOf (c :: rest) then
      r ++ replaceAllFuel n r fuel (List.drop n.length (c :: rest))
    else
      c :: replaceAllFuel n r fuel rest

/-- Python `bytes.replace` for a non-empty needle: left-to-right,
non-overlapping replacement of every occurrence of `n` by `r`.  (An empty
needle, which Python treats as matching between every character, never occurs
here: every needle used is a non-empty repr or literal.) -/
def replaceAll (n r hay : List Char) : List Char :=
  replaceAllFuel n r hay.length hay

/-- Whether `n` occurs as a contiguous substring of the second argument. -/
def hasSubstr (n : List Char) : List Char → Bool
  | [] => n.isEmpty
  | c :: rest => n.isPrefixOf (c :: rest) || hasSubstr n rest

/-- Characters before the first `'#'`. -/
def takeBeforeHashList : List Char → List Char
  | [] => []
  | c :: rest => if c = '#' then [] else c :: takeBeforeHashList rest

/-- Python `s.split("#")[0]` — the prefix of `s` before the first `'#'`
(update.py applies this to every repr needle; reprs contain no `'#'`). -/
def takeBeforeHash (s : String) : String :=
  ⟨takeBeforeHashList s.data⟩

/-- The value `Version(package, "NEXT", 0, 0)` from update.py line 128 (the
construction satisfies the `NEXT` invariant, so it cannot raise). -/
def nextSentinel (package : String) : Version :=
  ⟨package, Major.next, 0, 0, none, none, none⟩

/-- The needle `NEXT_repr_bytes`: the canonical repr of the `NEXT` sentinel version. -/
def NEXT_repr (package : String) : List Char :=
  (takeBeforeHash (pyRepr (nextSentinel package))).data

/-- The needle `version_repr_bytes`: the canonical repr of the new version `v`. -/
def version_repr (v : Version) : List Char :=
  (takeBeforeHash (pyRepr v)).data

/-- The needle `existing_version_repr_bytes`: update.py line 134 computes this from
`repr(v)` — the NEW version — not from `repr(existing)`. -/
def existing_version_repr (v : Version) : List Char :=
  (takeBeforeHash (pyRepr v)).data

/-- The per-file substitution pass of `_run` (lines 144–160): the
existing-prerelease replacement (gated on `existing.prerelease`, which is the
deprecated alias of `existing.release_candidate`), the two `NEXT`-sentinel
repr replacements (single- and double-quoted), and the
`"<package.lower()> NEXT"` replacement whose replacement text is
`v.public()` alone. -/
def processContent (package : String) (existing v : Version)
    (content : List Char) : List Char :=
  let c1 := if truthyO existing.release_candidate then
      replaceAll (existing_version_repr v) (version_repr v) content
    else content
  let c2 := replaceAll (NEXT_repr package) (version_repr v) c1
  let c3 := replaceAll (replaceAll ['\''] ['"'] (NEXT_repr package))
    (version_repr v) c2
  replaceAll ((pyLower package ++ " NEXT").data) ((pyPublic v).data) c3

/-- The per-file write decision of `_run` (lines 162–165): the file is
written (with the substituted content) only when the substitution passes
changed it; `none` means the file is left untouched. -/
def rewriteFile (package : String) (existing v : Version)
    (original : List Char) : Option (List Char) :=
  let content := processContent package existing v original
  if content = original then none else some content

/-!  ## Order-theoretic facts about the comparison algorithm  -/

theorem pyCmp_lt_iff (a b : Int) : pyCmp a b = .lt ↔ a < b := by
  unfold pyCmp
  split_ifs <;> simp_all

theorem pyCmp_eq_iff (a b : Int) : pyCmp a b = .eq ↔ a = b := by
  unfold pyCmp
  split_ifs <;> simp_all
  omega

theorem pyCmp_gt_iff (a b : Int) : pyCmp a b = .gt ↔ b < a := by
  unfold pyCmp
  split_ifs <;> simp_all <;> omega

/-- The three laws making a 3-way comparator a strict total order: its `eq`
answers coincide with equality, `lt` and `gt` are mutually reversed, and
`lt` is transitive. -/
structure LawCmp {α : Type} (cmp : α → α → Ordering) : Prop where
  eq_iff : ∀ a b, cmp a b = .eq ↔ a = b
  lt_iff_gt : ∀ a b, cmp a b = .lt ↔ cmp b a = .gt
  lt_trans : ∀ a b c, cmp a b = .lt → cmp b c = .lt → cmp a c = .lt

theorem lawCmp_pyCmp : LawCmp pyCmp := by
  constructor
  · exact pyCmp_eq_iff
  · intro a b
    rw [pyCmp_lt_iff, pyCmp_gt_iff]
  · intro a b c hab hbc
    rw [pyCmp_lt_iff] at hab hbc ⊢
    omega

theorem lawCmp_extCmp : LawCmp ExtInt.cmp := by
  constructor
  · intro a b
    cases a <;> cases b <;> simp [ExtInt.cmp, pyCmp_eq_iff]
  · intro a b
    cases a <;> cases b <;> simp [ExtInt.cmp, pyCmp_lt_iff, pyCmp_gt_iff]
  · intro a b c hab hbc
    cases a <;> cases b <;> cases c <;> simp_all [ExtInt.cmp]
    rw [pyCmp_lt_iff] at hab hbc ⊢
    omega

/-- Destructuring a lexicographic `lt`. -/
theorem cmpProd_lt_iff {α β : Type} (ca : α → α → Ordering)
    (cb : β → β → Ordering) (x y : α × β) :
    cmpProd ca cb x y = .lt ↔
      ca x.1 y.1 = .lt ∨ (ca x.1 y.1 = .eq ∧ cb x.2 y.2 = .lt) := by
  cases hca : ca x.1 y.1 <;> simp [cmpProd, Ordering.then, hca]

/-- Destructuring a lexicographic `gt`. -/
theorem cmpProd_gt_iff {α β : Type} (ca : α → α → Ordering)
    (cb : β → β → Ordering) (x y : α × β) :
    cmpProd ca cb x y = .gt ↔
      ca x.1 y.1 = .gt ∨ (ca x.1 y.1 = .eq ∧ cb x.2 y.2 = .gt) := by
  cases hca : ca x.1 y.1 <;> simp [cmpProd, Ordering.then, hca]

/-- Destructuring a lexicographic `eq`. -/
theorem cmpProd_eq_iff {α β : Type} (ca : α → α → Ordering)
    (cb : β → β → Ordering) (x y : α × β) :
    cmpProd ca cb x y = .eq ↔ ca x.1 y.1 = .eq ∧ cb x.2 y.2 = .eq := by
  cases hca : ca x.1 y.1 <;> simp [cmpProd, Ordering.then, hca]

theorem lawCmp_cmpProd {α β : Type} {ca : α → α → Ordering}
    {cb : β → β → Ordering} (ha : LawCmp ca) (hb : LawCmp cb) :
    LawCmp (cmpProd ca cb) := by
  constructor
  · intro x y
    rw [cmpProd_eq_iff, ha.eq_iff, hb.eq_iff, Prod.ext_iff]
  · intro x y
    rw [cmpProd_lt_iff, cmpProd_gt_iff]
    constructor
    · rintro (h | ⟨h, h'⟩)
      · exact Or.inl ((ha.lt_iff_gt _ _).mp h)
      · refine Or.inr ⟨?_, (hb.lt_iff_gt _ _).mp h'⟩
        rw [ha.eq_iff] at h ⊢
        exact h.symm
    · rintro (h | ⟨h, h'⟩)
      · exact Or.inl ((ha.lt_iff_gt _ _).mpr h)
      · refine Or.inr ⟨?_, (hb.lt_iff_gt _ _).mpr h'⟩
        rw [ha.eq_iff] at h ⊢
        exact h.symm
  · intro x y z hxy hyz
    rw [cmpProd_lt_iff] at hxy hyz ⊢
    rcases hxy with h1 | ⟨h1, h1'⟩ <;> rcases hyz with h2 | ⟨h2, h2'⟩
    · exact Or.inl (ha.lt_trans _ _ _ h1 h2)
    · rw [ha.eq_iff] at h2
      rw [h2] at h1
      exact Or.inl h1
    · rw [ha.eq_iff] at h1
      rw [← h1] at h2
      exact Or.inl h2
    · rw [ha.eq_iff] at h1 h2
      refine Or.inr ⟨?_, hb.lt_trans _ _ _ h1' h2'⟩
      rw [ha.eq_iff]
      rw [h1, h2]

theorem lawCmp_cmp6 : LawCmp cmp6 :=
  lawCmp_cmpProd lawCmp_extCmp (lawCmp_cmpProd lawCmp_pyCmp
    (lawCmp_cmpProd lawCmp_pyCmp (lawCmp_cmpProd lawCmp_extCmp
      (lawCmp_cmpProd lawCmp_pyCmp lawCmp_extCmp))))

/-- On equal (lowercased) package names, `__cmp__` reaches the tuple
comparison and returns its `-1`/`0`/`1` outcome. -/
theorem cmpPy_samePackage (a b : Version)
    (h : pyLower a.package = pyLower b.package) :
    a.cmpPy (.ver b) = .result (cmp6 a.key b.key).toPyInt := by
  simp [Version.cmpPy, h]

theorem result_toPyInt_eq_neg_one (o : Ordering) :
    CmpResult.result o.toPyInt = CmpResult.result (-1) ↔ o = .lt := by
  cases o <;> simp [Ordering.toPyInt]

theorem result_toPyInt_eq_zero (o : Ordering) :
    CmpResult.result o.toPyInt = CmpResult.result 0 ↔ o = .eq := by
  cases o <;> simp [Ordering.toPyInt]

theorem result_toPyInt_eq_one (o : Ordering) :
    CmpResult.result o.toPyInt = CmpResult.result 1 ↔ o = .gt := by
  cases o <;> simp [Ordering.toPyInt]

/-- C1: for versions a, b, c of the same package (case-insensitive), the
comparison primitive `Version.__cmp__` — the per-field substitutions
(major NEXT to infinity, absent releaseCandidate to infinity, absent post to
-1, absent dev to infinity) followed by lexicographic 6-tuple comparison —
yields a strict total order: exactly one of a<b (result -1), a==b (result 0),
a>b (result 1) holds, a<b holds exactly when b>a, and a<b together with b<c
implies a<c. -/
theorem C1_cmp_strict_total_order (a b c : Version)
    (hab : pyLower a.package = pyLower b.package)
    (hbc : pyLower b.package = pyLower c.package) :
    (a.cmpPy (.ver b) = .result (-1) ∨ a.cmpPy (.ver b) = .result 0 ∨
      a.cmpPy (.ver b) = .result 1) ∧
    ¬(a.cmpPy (.ver b) = .result (-1) ∧ a.cmpPy (.ver b) = .result 0) ∧
    ¬(a.cmpPy (.ver b) = .result (-1) ∧ a.cmpPy (.ver b) = .result 1) ∧
    ¬(a.cmpPy (.ver b) = .result 0 ∧ a.cmpPy (.ver b) = .result 1) ∧
    (a.cmpPy (.ver b) = .result (-1) ↔ b.cmpPy (.ver a) = .result 1) ∧
    (a.cmpPy (.ver b) = .result (-1) → b.cmpPy (.ver c) = .result (-1) →
      a.cmpPy (.ver c) = .result (-1)) := by
  have hac : pyLower a.package = pyLower c.package := hab.trans hbc
  rw [cmpPy_samePackage a b hab, cmpPy_samePackage b c hbc,
    cmpPy_samePackage a c hac, cmpPy_samePackage b a hab.symm]
  simp only [result_toPyInt_eq_neg_one, result_toPyInt_eq_zero,
    result_toPyInt_eq_one]
  refine ⟨?_, ?_, ?_, ?_, ?_, ?_⟩
  · cases cmp6 a.key b.key <;> simp
  · cases cmp6 a.key b.key <;> simp
  · cases cmp6 a.key b.key <;> simp
  · cases cmp6 a.key b.key <;> simp
  · exact lawCmp_cmp6.lt_iff_gt a.key b.key
  · exact lawCmp_cmp6.lt_trans a.key b.key c.key

/-- Concrete same-package versions used by the C1 witness. -/
def wva : Version := ⟨"p", Major.num 1, 0, 0, none, none, none⟩

/-- See `wva`. -/
def wvb : Version := ⟨"p", Major.num 1, 1, 0, none, none, none⟩

/-- See `wva`. -/
def wvc : Version := ⟨"p", Major.num 2, 0, 0, none, none, none⟩

/-- Witness for C1 at three concrete versions of package "p". -/
theorem C1_cmp_strict_total_order_witness :
    pyLower wva.package = pyLower wvb.package ∧
    pyLower wvb.package = pyLower wvc.package ∧
    ((wva.cmpPy (.ver wvb) = .result (-1) ∨ wva.cmpPy (.ver wvb) = .result 0 ∨
        wva.cmpPy (.ver wvb) = .result 1) ∧
      ¬(wva.cmpPy (.ver wvb) = .result (-1) ∧
        wva.cmpPy (.ver wvb) = .result 0) ∧
      ¬(wva.cmpPy (.ver wvb) = .result (-1) ∧
        wva.cmpPy (.ver wvb) = .result 1) ∧
      ¬(wva.cmpPy (.ver wvb) = .result 0 ∧
        wva.cmpPy (.ver wvb) = .result 1) ∧
      (wva.cmpPy (.ver wvb) = .result (-1) ↔
        wvb.cmpPy (.ver wva) = .result 1) ∧
      (wva.cmpPy (.ver wvb) = .result (-1) →
        wvb.cmpPy (.ver wvc) = .result (-1) →
        wva.cmpPy (.ver wvc) = .result (-1))) :=
  ⟨rfl, rfl, C1_cmp_strict_total_order wva wvb wvc rfl rfl⟩

/-!  ## Bump-engine evaluations (claims C2–C5)  -/

/-- C2 (code evaluation at the failing input): on an existing version with a
release candidate, the default (no-flags) run passes the literal `0` as the
positional `release_candidate` argument, so the new version carries
release_candidate=0 — rendered "rc0" by public() — instead of clearing the
field as the claim (and the repository's own test_full_with_rc) states; on an
existing version without a release candidate it fails with the no-prerelease
message. -/
theorem C2_finalize_eval :
    runDecision "inctestpkg" none false false false false
      ⟨"inctestpkg", Major.num 16, 8, 0, some 1, none, none⟩ 2016 8 =
      .ok ⟨"inctestpkg", Major.num 16, 8, 0, some 0, none, none⟩ ∧
    pyPublic ⟨"inctestpkg", Major.num 16, 8, 0, some 0, none, none⟩ =
      "16.8.0rc0" ∧
    pyRepr ⟨"inctestpkg", Major.num 16, 8, 0, some 0, none, none⟩ =
      "Version('inctestpkg', 16, 8, 0, release_candidate=0)" ∧
    runDecision "inctestpkg" none false false false false
      ⟨"inctestpkg", Major.num 16, 8, 0, none, none, none⟩ 2016 8 =
      .error "You need to issue a prerelease first!" :=
  ⟨rfl, rfl, rfl, rfl⟩

/-- C3 (code evaluation at the failing input): with only the rc flag and an
existing version (1,2,3,rc=1,dev=2), the rc branch computes rc=2 and the
trailing `if rc:` increments again, yielding rc=3 — not rc=2 as the claim
(and the repository's own test_rc_with_existing_rc) states. -/
theorem C3_rc_with_existing_rc_eval :
    runDecision "inctestpkg" none false true false false
      ⟨"inctestpkg", Major.num 1, 2, 3, some 1, none, some 2⟩ 2016 8 =
      .ok ⟨"inctestpkg", Major.num 1, 2, 3, some 3, none, none⟩ :=
  rfl

/-- C4 (code evaluation at the failing input): with only the rc flag, an
existing version (1,2,3,dev=2) without a release candidate, and date 2016-08,
the new-release-line branch constructs micro=1 (update.py line 103), yielding
(16,8,1,rc=1) — not (16,8,0,rc=1) as the claim (and the repository's own
test_rc_with_no_rc) states. -/
theorem C4_rc_without_rc_eval :
    runDecision "inctestpkg" none false true false false
      ⟨"inctestpkg", Major.num 1, 2, 3, none, none, some 2⟩ 2016 8 =
      .ok ⟨"inctestpkg", Major.num 16, 8, 1, some 1, none, none⟩ :=
  rfl

/-- C5 counterexample: the pair (patch, rc) — two active flags from different
mode groups — is NOT rejected: the engine runs the rc branch and succeeds, so
the claim that every such pair fails with an invalid-combination condition is
false. -/
theorem C5_patch_rc_counterexample :
    runDecision "inctestpkg" none true true false false
      ⟨"inctestpkg", Major.num 1, 2, 3, some 1, none, none⟩ 2016 8 =
      .ok ⟨"inctestpkg", Major.num 1, 2, 3, some 3, none, none⟩ :=
  rfl

/-- C5 (amended): for every pair of two simultaneously active bump-mode flags
from different mode groups EXCEPT the pair (patch, rc), the engine fails with
an invalid-combination error naming one of the conflicting flags; the check
is a pure function of the flags, evaluated before the stored version is
consulted. -/
theorem C5_invalid_combination (package : String) (newversion : Option String)
    (patch rc dev create : Bool) (existing : Version) (year month : Int)
    (h : (truthyS newversion && patch || truthyS newversion && dev ||
        truthyS newversion && rc || dev && patch || dev && rc ||
        create && dev || create && patch || create && rc ||
        create && truthyS newversion) = true) :
    runDecision package newversion patch rc dev create existing year month =
      .error "Only give --newversion" ∨
    runDecision package newversion patch rc dev create existing year month =
      .error "Only give --dev" ∨
    runDecision package newversion patch rc dev create existing year month =
      .error "Only give --create" := by
  unfold runDecision
  cases hnv : truthyS newversion <;> cases patch <;> cases rc <;>
    cases dev <;> cases create <;> simp_all

/-- Witness for C5 (amended) at newversion="1.0.0" combined with patch. -/
theorem C5_invalid_combination_witness :
    (truthyS (some "1.0.0") && true || truthyS (some "1.0.0") && false ||
      truthyS (some "1.0.0") && false || false && true || false && false ||
      false && false || false && true || false && false ||
      false && truthyS (some "1.0.0")) = true ∧
    (runDecision "inctestpkg" (some "1.0.0") true false false false
        ⟨"inctestpkg", Major.num 1, 2, 3, none, none, none⟩ 2016 8 =
        .error "Only give --newversion" ∨
      runDecision "inctestpkg" (some "1.0.0") true false false false
        ⟨"inctestpkg", Major.num 1, 2, 3, none, none, none⟩ 2016 8 =
        .error "Only give --dev" ∨
      runDecision "inctestpkg" (some "1.0.0") true false false false
        ⟨"inctestpkg", Major.num 1, 2, 3, none, none, none⟩ 2016 8 =
        .error "Only give --create") :=
  ⟨by decide, C5_invalid_combination "inctestpkg" (some "1.0.0") true false
    false false ⟨"inctestpkg", Major.num 1, 2, 3, none, none, none⟩ 2016 8
    (by decide)⟩

/-!  ## Tree-rewrite substitution (claims C6–C8)  -/

/-- C6 (code evaluation at the failing input): with existing version
(16,8,0,rc=1) and new version (16,8,0,rc=0) as computed by the default
finalize run, a file consisting of the existing version's repr is left
completely unchanged — the existing repr survives — because update.py line
134 computes the existing-version needle from repr(v), the NEW version,
making the first substitution pass replace the new repr with itself. -/
theorem C6_existing_repr_survives :
    processContent "inctestpkg"
      ⟨"inctestpkg", Major.num 16, 8, 0, some 1, none, none⟩
      ⟨"inctestpkg", Major.num 16, 8, 0, some 0, none, none⟩
      "introduced_in = Version('inctestpkg', 16, 8, 0, release_candidate=1).short()".data =
    "introduced_in = Version('inctestpkg', 16, 8, 0, release_candidate=1).short()".data ∧
    hasSubstr
      (pyRepr ⟨"inctestpkg", Major.num 16, 8, 0, some 1, none, none⟩).data
      "introduced_in = Version('inctestpkg', 16, 8, 0, release_candidate=1).short()".data =
      true :=
  ⟨rfl, rfl⟩

/-- C7 (code evaluation at the failing input): the literal
"inctestpkg NEXT" is replaced by the new version's public() string alone
("1.2.4"), dropping the package-name prefix, instead of by
"inctestpkg 1.2.4" as the claim (and the repository's own test_patch)
states. -/
theorem C7_package_prefix_dropped :
    processContent "inctestpkg"
      ⟨"inctestpkg", Major.num 1, 2, 3, none, none, none⟩
      ⟨"inctestpkg", Major.num 1, 2, 4, none, none, none⟩
      "next_released_version = \"inctestpkg NEXT\"".data =
    "next_released_version = \"1.2.4\"".data ∧
    pyPublic ⟨"inctestpkg", Major.num 1, 2, 4, none, none, none⟩ = "1.2.4" :=
  ⟨rfl, rfl⟩

theorem replaceAllFuel_of_not_hasSubstr (n r : List Char) (fuel : Nat)
    (hay : List Char) (h : hasSubstr n hay = false) :
    replaceAllFuel n r fuel hay = hay := by
  induction fuel generalizing hay with
  | zero => cases hay <;> rfl
  | succ fuel ih =>
    cases hay with
    | nil => rfl
    | cons c rest =>
      simp only [hasSubstr, Bool.or_eq_false_iff] at h
      have hcond : ¬(n ≠ [] ∧ n.isPrefixOf (c :: rest) = true) := by
        rintro ⟨-, hp⟩
        rw [h.1] at hp
        exact Bool.noConfusion hp
      simp only [replaceAllFuel]
      rw [if_neg hcond, ih rest h.2]

/-- If the needle does not occur in the haystack, `bytes.replace` returns
the haystack unchanged. -/
theorem replaceAll_of_not_hasSubstr (n r hay : List Char)
    (h : hasSubstr n hay = false) : replaceAll n r hay = hay :=
  replaceAllFuel_of_not_hasSubstr n r hay.length hay h

/-- C8: a file whose content contains none of the substitution needles (the
existing-version needle — which the code derives from the new version's repr
—, the single- and double-quoted NEXT-sentinel reprs, and the
"package NEXT" literal) has its content left equal by the substitution
passes, and the tree rewriter does not write it (`rewriteFile` returns
`none`). -/
theorem C8_no_needles_untouched (package : String) (existing v : Version)
    (content : List Char)
    (h1 : hasSubstr (existing_version_repr v) content = false)
    (h2 : hasSubstr (NEXT_repr package) content = false)
    (h3 : hasSubstr (replaceAll ['\''] ['"'] (NEXT_repr package)) content =
      false)
    (h4 : hasSubstr ((pyLower package ++ " NEXT").data) content = false) :
    processContent package existing v content = content ∧
    rewriteFile package existing v content = none := by
  have hp : processContent package existing v content = content := by
    have e1 : (if truthyO existing.release_candidate then
          replaceAll (existing_version_repr v) (version_repr v) content
        else content) = content := by
      split
      · exact replaceAll_of_not_hasSubstr _ _ _ h1
      · rfl
    simp only [processContent]
    rw [e1, replaceAll_of_not_hasSubstr _ _ _ h2,
      replaceAll_of_not_hasSubstr _ _ _ h3,
      replaceAll_of_not_hasSubstr _ _ _ h4]
  refine ⟨hp, ?_⟩
  unfold rewriteFile
  rw [hp]
  simp

/-- Witness for C8 at a concrete file content containing no needle. -/
theorem C8_no_needles_untouched_witness :
    hasSubstr
      (existing_version_repr
        ⟨"inctestpkg", Major.num 1, 2, 4, none, none, none⟩)
      "hello world".data = false ∧
    hasSubstr (NEXT_repr "inctestpkg") "hello world".data = false ∧
    hasSubstr (replaceAll ['\''] ['"'] (NEXT_repr "inctestpkg"))
      "hello world".data = false ∧
    hasSubstr ((pyLower "inctestpkg" ++ " NEXT").data) "hello world".data =
      false ∧
    (processContent "inctestpkg"
        ⟨"inctestpkg", Major.num 1, 2, 3, some 1, none, none⟩
        ⟨"inctestpkg", Major.num 1, 2, 4, none, none, none⟩
        "hello world".data = "hello world".data ∧
      rewriteFile "inctestpkg"
        ⟨"inctestpkg", Major.num 1, 2, 3, some 1, none, none⟩
        ⟨"inctestpkg", Major.num 1, 2, 4, none, none, none⟩
        "hello world".data = none) :=
  ⟨rfl, rfl, rfl, rfl,
    C8_no_needles_untouched "inctestpkg"
      ⟨"inctestpkg", Major.num 1, 2, 3, some 1, none, none⟩
      ⟨"inctestpkg", Major.num 1, 2, 4, none, none, none⟩
      "hello world".data rfl rfl rfl rfl⟩

/-!  ## rc=0 and non-Version operands (claims C9, C10)  -/

theorem data_empty : ("" : String).data = [] := rfl

theorem hasSubstr_append_right (n xs ys : List Char)
    (h : hasSubstr n ys = true) : hasSubstr n (xs ++ ys) = true := by
  induction xs with
  | nil => exact h
  | cons c rest ih => simp [hasSubstr, ih]

theorem hasSubstr_of_isPrefixOf (n ys : List Char)
    (h : n.isPrefixOf ys = true) : hasSubstr n ys = true := by
  cases ys with
  | nil =>
    cases n with
    | nil => rfl
    | cons c r => simp [List.isPrefixOf] at h
  | cons c rest => simp [hasSubstr, h]

/-- C9: a version constructed with release_candidate=0 is treated as carrying
a release candidate, not as lacking one: the constructor stores the 0 (it is
not normalized to None), public() is the rc-less public string with "rc0"
appended, repr contains ", release_candidate=0", and the version compares
strictly less than the otherwise-identical version with the field absent. -/
theorem C9_rc_zero_present (pkg : String) (maj minor micro : Int) :
    mkVersionPy pkg (Major.num maj) minor micro (some 0) none none none =
      .ok ⟨pkg, Major.num maj, minor, micro, some 0, none, none⟩ ∧
    pyPublic ⟨pkg, Major.num maj, minor, micro, some 0, none, none⟩ =
      pyPublic ⟨pkg, Major.num maj, minor, micro, none, none, none⟩ ++
        "rc0" ∧
    hasSubstr ", release_candidate=0".data
      (pyRepr ⟨pkg, Major.num maj, minor, micro, some 0, none, none⟩).data =
      true ∧
    Version.cmpPy ⟨pkg, Major.num maj, minor, micro, some 0, none, none⟩
      (.ver ⟨pkg, Major.num maj, minor, micro, none, none, none⟩) =
      .result (-1) := by
  refine ⟨rfl, ?_, ?_, ?_⟩
  · apply String.ext
    simp [pyPublic, String.data_append, data_empty, List.append_assoc,
      show pyIntStr 0 = "0" from rfl]
  · have hsplit :
        (pyRepr ⟨pkg, Major.num maj, minor, micro, some 0, none, none⟩).data =
        ("Version('" ++ pkg ++ "', " ++ majorRepr (Major.num maj) ++ ", " ++
          pyIntStr minor ++ ", " ++ pyIntStr micro).data ++
        (", release_candidate=0".data ++ ")".data) := by
      simp [pyRepr, String.data_append, data_empty, List.append_assoc,
        show pyIntStr 0 = "0" from rfl]
    rw [hsplit]
    apply hasSubstr_append_right
    apply hasSubstr_of_isPrefixOf
    rw [ List.isPrefixOf_iff_prefix]
    exact List.prefix_append _ _
  · have hkey : cmp6
        (Version.key ⟨pkg, Major.num maj, minor, micro, some 0, none, none⟩)
        (Version.key ⟨pkg, Major.num maj, minor, micro, none, none, none⟩) =
        .lt := by
      simp [cmp6, Version.key, cmpProd, substMajor, substOptInf, substPost,
        ExtInt.cmp, pyCmp, Ordering.then]
    simp [Version.cmpPy, hkey, Ordering.toPyInt]

/-- C10: for a non-Version operand, `__cmp__` returns NotImplemented rather
than raising, so Python's fallback makes == come out False and != come out
True, with no IncomparableVersions raised. -/
theorem C10_non_version_operand (v : Version) (x : PyObj)
    (h : x.isVersionInstance = false) :
    v.cmpPy x = .notImplemented ∧ pyEq v x = .ok false ∧
    pyNe v x = .ok true := by
  cases x <;> simp_all [PyObj.isVersionInstance, Version.cmpPy, pyEq, pyNe]

/-- Witness for C10 at a concrete version and the int operand 5. -/
theorem C10_non_version_operand_witness :
    (PyObj.intObj 5).isVersionInstance = false ∧
    (Version.cmpPy ⟨"p", Major.num 1, 0, 0, none, none, none⟩
        (PyObj.intObj 5) = .notImplemented ∧
      pyEq ⟨"p", Major.num 1, 0, 0, none, none, none⟩ (PyObj.intObj 5) =
        .ok false ∧
      pyNe ⟨"p", Major.num 1, 0, 0, none, none, none⟩ (PyObj.intObj 5) =
        .ok true) :=
  ⟨rfl, C10_non_version_operand ⟨"p", Major.num 1, 0, 0, none, none, none⟩
    (PyObj.intObj 5) rfl⟩
